import Mathlib

/-!
Shallow embedding of the SkyMind flight-search engine (Python) and proofs
about it.  Sources embedded: `app/core/schema.py`, `app/core/normalize.py`,
`app/core/dedupe.py`, `app/core/scoring.py`, `app/core/price_prediction.py`,
`app/core/cache.py`, `app/services/orchestrator.py`.

Modelling conventions:
- Python floats are modelled as `ℚ` (all constants in the code are exact
  decimals); Python ints as `ℤ`/`ℕ`.
- naive `datetime` values on legs are modelled as whole minutes since a
  midnight-aligned epoch; `dt.hour` becomes `(t / 60) % 24` and the calendar
  date (used only for equality inside dedup signatures, via `strftime "%Y%m%d"`)
  becomes the day index `t / 1440`, which has the same equality semantics.
- A `SearchIntent.departure_date` is date-only in every embedded code path,
  so it is modelled as a year/month/day record with `strftime "%Y-%m-%d"`
  zero-padded formatting.
- Python `sorted` is a stable sort; it is modelled by Mathlib's stable
  `List.insertionSort`.
- Python `round(x, n)` (round-half-to-even) is modelled by `pyRound`;
  `int(x)` (truncation toward zero) by `pyTrunc`; `str.join` by `pyJoin`;
  `list(set(xs))` by `List.dedup` (the claim treats flag order as
  insignificant, so the iteration order of the Python set does not matter).
-/

/-- Python `round` to an integer: round half to even (banker's rounding). -/
def pyRound (q : ℚ) : ℤ :=
  if Int.fract q = 1/2 then (if 2 ∣ ⌊q⌋ then ⌊q⌋ else ⌊q⌋ + 1) else round q

/-- Python `round(x, 2)`. -/
def round2 (q : ℚ) : ℚ := (pyRound (q * 100) : ℚ) / 100

/-- Python `int(x)`: truncation toward zero. -/
def pyTrunc (q : ℚ) : ℤ := if 0 ≤ q then ⌊q⌋ else -⌊-q⌋

/-- Python `sep.join(parts)`. -/
def pyJoin (sep : String) : List String → String
  | [] => ""
  | [s] => s
  | s :: rest => s ++ sep ++ pyJoin sep rest

/-- `dt.hour` for a naive datetime stored as minutes since a midnight-aligned
epoch. -/
def hourOf (t : ℤ) : ℤ := (t.ediv 60).emod 24

/-- Day index of a minutes-since-epoch timestamp; two timestamps produce the
same `strftime "%Y%m%d"` string iff they have the same day index. -/
def dayIndexOf (t : ℤ) : ℤ := t.ediv 1440

/-- Zero-pad to two digits, as `strftime "%m"` / `"%d"` do. -/
def pad2 (n : ℕ) : String := if n < 10 then "0" ++ toString n else toString n

/-- Zero-pad to four digits, as `strftime "%Y"` does. -/
def pad4 (n : ℕ) : String :=
  if n < 10 then "000" ++ toString n
  else if n < 100 then "00" ++ toString n
  else if n < 1000 then "0" ++ toString n
  else toString n

/-- `str.capitalize()`: first character upper-cased, the rest lower-cased. -/
def pyCapitalize (s : String) : String :=
  match s.data with
  | [] => s
  | c :: rest => String.mk (c.toUpper :: rest.map Char.toLower)

/-! ### Canonical schema (`app/core/schema.py`) -/

/-- `CabinClass(str, Enum)`. -/
inductive CabinClass where
  | economy
  | premium_economy
  | business
  | first
deriving DecidableEq, Inhabited

/-- The string `.value` of a `CabinClass` member. -/
def CabinClass.value : CabinClass → String
  | .economy => "economy"
  | .premium_economy => "premium_economy"
  | .business => "business"
  | .first => "first"

/-- `BaggageType(str, Enum)`. -/
inductive BaggageType where
  | carry_on
  | checked
  | personal_item
deriving DecidableEq, Inhabited

/-- `RiskFlag(str, Enum)`. -/
inductive RiskFlag where
  | self_transfer
  | tight_connection
  | overnight_layover
  | separate_tickets
  | airport_change
  | long_layover
  | red_eye
deriving DecidableEq, Inhabited

/-- The string `.value` of a `RiskFlag` member. -/
def RiskFlag.value : RiskFlag → String
  | .self_transfer => "self_transfer"
  | .tight_connection => "tight_connection"
  | .overnight_layover => "overnight_layover"
  | .separate_tickets => "separate_tickets"
  | .airport_change => "airport_change"
  | .long_layover => "long_layover"
  | .red_eye => "red_eye"

/-- `Baggage(BaseModel)`. -/
structure Baggage where
  type : BaggageType
  quantity : ℤ := 0
  weight_kg : Option ℤ := none
  included : Bool := false
  price_usd : Option ℚ := none
  restrictions : List String := []
deriving DecidableEq, Inhabited

/-- `FareRules(BaseModel)`. -/
structure FareRules where
  changeable : Bool := false
  change_fee_usd : Option ℚ := none
  refundable : Bool := false
  cancellation_fee_usd : Option ℚ := none
  notes : List String := []
deriving DecidableEq, Inhabited

/-- `Airport(BaseModel)`. -/
structure Airport where
  code : String
  name : String
  city : String
  country : String
  timezone : Option String := none
deriving DecidableEq, Inhabited

/-- `Leg(BaseModel)`; datetimes are minutes since the epoch. -/
structure Leg where
  leg_id : String
  origin : Airport
  destination : Airport
  departure_time : ℤ
  arrival_time : ℤ
  duration_minutes : ℤ
  airline : String
  airline_code : String
  flight_number : String
  aircraft : Option String := none
  cabin_class : CabinClass
  operating_airline : Option String := none
  on_time_percent : Option ℚ := none
deriving DecidableEq, Inhabited

/-- `Layover(BaseModel)`. -/
structure Layover where
  airport : Airport
  duration_minutes : ℤ
  overnight : Bool := false
  airport_change : Bool := false
  notes : List String := []
deriving DecidableEq, Inhabited

/-- `PriceBreakdown(BaseModel)`. -/
structure PriceBreakdown where
  base_fare_usd : ℚ
  taxes_usd : ℚ
  fees_usd : ℚ := 0
  total_usd : ℚ
  currency : String := "USD"
  price_per_traveler : Option ℚ := none
  num_travelers : ℤ := 1
deriving DecidableEq, Inhabited

/-- `ProviderMetadata(BaseModel)`; `last_updated` is minutes since the epoch. -/
structure ProviderMetadata where
  provider_name : String
  provider_id : String
  deeplink : String
  last_updated : ℤ
  trust_score : ℚ := 1
  notes : List String := []
deriving DecidableEq, Inhabited

/-- `Signals(BaseModel)`. -/
structure Signals where
  on_time_proxy : Option ℚ := none
  airport_quality : Option ℚ := none
  seat_availability : Option String := none
  popularity : Option ℚ := none
deriving DecidableEq, Inhabited

/-- The weight map over the seven scoring dimensions (a `Dict[str, float]`
with exactly these keys everywhere in the code). -/
structure Weights where
  price : ℚ
  duration : ℚ
  stops : ℚ
  layover : ℚ
  baggage : ℚ
  risk : ℚ
  reliability : ℚ
deriving DecidableEq, Inhabited

/-- `ScoreBreakdown(BaseModel)`. -/
structure ScoreBreakdown where
  price_score : ℚ
  duration_score : ℚ
  stops_score : ℚ
  layover_score : ℚ
  baggage_score : ℚ
  risk_score : ℚ
  reliability_score : ℚ
  weights : Weights
deriving DecidableEq, Inhabited

/-- `Itinerary(BaseModel)` (the canonical schema; `price_analysis` is held
separately by the price predictor and omitted here). -/
structure Itinerary where
  itinerary_id : String
  legs : List Leg
  layovers : List Layover := []
  num_stops : ℤ
  total_duration_minutes : ℤ
  is_direct : Bool := false
  price : PriceBreakdown
  baggage : List Baggage := []
  fare_rules : FareRules
  risk_flags : List RiskFlag := []
  signals : Signals := {}
  provider : ProviderMetadata
  score : Option ℚ := none
  score_breakdown : Option ScoreBreakdown := none
  explanation : Option String := none
deriving DecidableEq, Inhabited

/-- A date-only `datetime` (`SearchIntent.departure_date` is only ever used
date-wise in the embedded code). -/
structure DateOnly where
  year : ℕ
  month : ℕ
  day : ℕ
deriving DecidableEq, Inhabited

/-- `departure_date.strftime("%Y-%m-%d")`. -/
def DateOnly.format (d : DateOnly) : String :=
  pad4 d.year ++ "-" ++ pad2 d.month ++ "-" ++ pad2 d.day

/-- `SearchIntent(BaseModel)` (fields not read by any embedded operation —
`return_date`, flexibility fields, `num_travelers` — are omitted). -/
structure SearchIntent where
  origins : List String
  destinations : List String
  departure_date : DateOnly
  cabin_class : CabinClass := .economy
  max_stops : Option ℤ := none
  nonstop_only : Bool := false
  max_price_usd : Option ℚ := none
  max_duration_hours : Option ℚ := none
  no_red_eyes : Bool := false
  no_overnight_layovers : Bool := false
  priority : String := "balanced"
deriving DecidableEq, Inhabited

/-- The red-eye departure test used both by `ItineraryNormalizer._detect_risks`
and `SearchOrchestrator._filter_by_intent`: local departure hour in
[22:00, 05:00). -/
def redEyeDeparture (leg : Leg) : Prop :=
  hourOf leg.departure_time ≥ 22 ∨ hourOf leg.departure_time < 5

instance (leg : Leg) : Decidable (redEyeDeparture leg) := by
  unfold redEyeDeparture; infer_instance

/-! ### Normalization (`app/core/normalize.py`, class `ItineraryNormalizer`) -/

namespace ItineraryNormalizer

/-- The risk flags contributed by a single layover inside the
`for layover in itinerary.layovers` loop of `_detect_risks`: an
`if`/`elif` chain for tight/long, then independent checks for overnight
and airport change. -/
def layoverRiskList (layover : Layover) : List RiskFlag :=
  (if layover.duration_minutes < 90 then [RiskFlag.tight_connection]
   else if 360 ≤ layover.duration_minutes ∧ layover.duration_minutes < 720 then
     [RiskFlag.long_layover]
   else [])
  ++ (if layover.overnight ∨ layover.duration_minutes ≥ 720 then
        [RiskFlag.overnight_layover] else [])
  ++ (if layover.airport_change then [RiskFlag.airport_change] else [])

/-- `ItineraryNormalizer._detect_risks`.  The layover loop appends flags per
layover, the leg loop adds `RED_EYE` at most once (it `break`s after the
first qualifying leg), and `list(set(risks))` collapses duplicates. -/
def detect_risks (itinerary : Itinerary) : List RiskFlag :=
  let risks := itinerary.layovers.flatMap layoverRiskList
  let risks := risks ++
    (if itinerary.legs.any (fun leg => decide (redEyeDeparture leg)) then
      [RiskFlag.red_eye] else [])
  risks.dedup

/-- `ItineraryNormalizer.normalize`: recompute `num_stops`, `is_direct`,
`total_duration_minutes` (only when there is at least one leg) and
`risk_flags`. -/
def normalize (itinerary : Itinerary) : Itinerary :=
  let num_stops : ℤ := (itinerary.legs.length : ℤ) - 1
  let total_duration : ℤ :=
    match itinerary.legs with
    | [] => itinerary.total_duration_minutes
    | l0 :: rest =>
      ((l0 :: rest).getLastD default).arrival_time - l0.departure_time
  let itin1 := { itinerary with
    num_stops := num_stops,
    is_direct := decide (num_stops = 0),
    total_duration_minutes := total_duration }
  { itin1 with risk_flags := detect_risks itin1 }

end ItineraryNormalizer

/-! ### Deduplication (`app/core/dedupe.py`, class `ItineraryDeduplicator`) -/

namespace ItineraryDeduplicator

/-- `ItineraryDeduplicator._compute_signature`: per-leg
`f"{airline_code}{flight_number}_{dep_date}_{origin.code}_{destination.code}"`
joined by `"|"` (the `%Y%m%d` date is modelled by the day index, which has
the same equality semantics). -/
def compute_signature (itin : Itinerary) : String :=
  pyJoin "|" (itin.legs.map (fun leg =>
    leg.airline_code ++ leg.flight_number ++ "_" ++ toString (dayIndexOf leg.departure_time)
      ++ "_" ++ leg.origin.code ++ "_" ++ leg.destination.code))

/-- Append an itinerary to its signature's group, keeping the group insertion
order of a Python `defaultdict(list)`. -/
def insertGroup : List (String × List Itinerary) → String → Itinerary →
    List (String × List Itinerary)
  | [], sig, it => [(sig, [it])]
  | (s, l) :: rest, sig, it =>
    if s = sig then (s, l ++ [it]) :: rest else (s, l) :: insertGroup rest sig it

/-- `ItineraryDeduplicator._group_by_signature`. -/
def group_by_signature (itineraries : List Itinerary) : List (String × List Itinerary) :=
  itineraries.foldl (fun gs it => insertGroup gs (compute_signature it) it) []

/-- The sort order of `_select_best`: Python key
`(x.price.total_usd, -x.provider.trust_score)` compared lexicographically. -/
def DedupLe (x y : Itinerary) : Prop :=
  x.price.total_usd < y.price.total_usd ∨
    (x.price.total_usd = y.price.total_usd ∧
      -x.provider.trust_score ≤ -y.provider.trust_score)

instance : DecidableRel DedupLe := fun x y => by unfold DedupLe; infer_instance

instance : IsTotal Itinerary DedupLe where
  total x y := by
    unfold DedupLe
    rcases lt_trichotomy x.price.total_usd y.price.total_usd with h | h | h
    · exact Or.inl (Or.inl h)
    · rcases le_total (-x.provider.trust_score) (-y.provider.trust_score) with h2 | h2
      · exact Or.inl (Or.inr ⟨h, h2⟩)
      · exact Or.inr (Or.inr ⟨h.symm, h2⟩)
    · exact Or.inr (Or.inl h)

instance : IsTrans Itinerary DedupLe where
  trans x y z hxy hyz := by
    unfold DedupLe at *
    rcases hxy with h1 | ⟨h1, h1'⟩ <;> rcases hyz with h2 | ⟨h2, h2'⟩
    · exact Or.inl (h1.trans h2)
    · exact Or.inl (lt_of_lt_of_eq h1 h2)
    · exact Or.inl (lt_of_eq_of_lt h1 h2)
    · exact Or.inr ⟨h1.trans h2, h1'.trans h2'⟩

theorem DedupLe.refl (x : Itinerary) : DedupLe x x := Or.inr ⟨rfl, le_refl _⟩

/-- The tail of `_select_best` after the winner is chosen: collect the
provider names of the duplicates whose `itinerary_id` differs from the
winner's and, if any, append the
`"Also available via: ..."` note unless that exact string is already among
the winner's provider notes. -/
def with_also_available_note (duplicates : List Itinerary) (best : Itinerary) : Itinerary :=
  if duplicates.length > 1 then
    let other_providers :=
      (duplicates.filter (fun d => decide (d.itinerary_id ≠ best.itinerary_id))).map
        (fun d => d.provider.provider_name)
    if other_providers ≠ [] then
      let note := "Also available via: " ++ pyJoin ", " other_providers
      if note ∉ best.provider.notes then
        { best with provider := { best.provider with notes := best.provider.notes ++ [note] } }
      else best
    else best
  else best

/-- `ItineraryDeduplicator._select_best`: stable sort by
`(price asc, trust desc)`, take the first element, then maybe add the
"also available" note.  (Python `sorted_itins[0]` raises on an empty group;
groups are never empty, the `default` is unreachable.) -/
def select_best (duplicates : List Itinerary) : Itinerary :=
  let sorted_itins := List.insertionSort DedupLe duplicates
  with_also_available_note duplicates (sorted_itins.headD default)

/-- `ItineraryDeduplicator.deduplicate`. -/
def deduplicate (itineraries : List Itinerary) : List Itinerary :=
  if itineraries.length ≤ 1 then itineraries
  else
    (group_by_signature itineraries).map (fun g =>
      if g.2.length = 1 then g.2.headD default else select_best g.2)

end ItineraryDeduplicator

/-! ### Scoring and ranking (`app/core/scoring.py`, class `ItineraryRanker`) -/

namespace ItineraryRanker

/-- `DEFAULT_WEIGHTS["cheap"]`. -/
def cheap_weights : Weights :=
  { price := 1/2, duration := 3/20, stops := 1/10, layover := 1/20,
    baggage := 1/20, risk := 1/10, reliability := 1/20 }

/-- `DEFAULT_WEIGHTS["fast"]`. -/
def fast_weights : Weights :=
  { price := 3/20, duration := 9/20, stops := 1/5, layover := 1/10,
    baggage := 1/50, risk := 1/20, reliability := 3/100 }

/-- `DEFAULT_WEIGHTS["comfort"]`. -/
def comfort_weights : Weights :=
  { price := 1/5, duration := 1/5, stops := 3/20, layover := 3/20,
    baggage := 1/10, risk := 3/20, reliability := 1/20 }

/-- `DEFAULT_WEIGHTS["balanced"]`. -/
def balanced_weights : Weights :=
  { price := 1/4, duration := 1/5, stops := 3/20, layover := 1/10,
    baggage := 1/10, risk := 3/20, reliability := 1/20 }

/-- `ItineraryRanker._get_weights`: profile for the lower-cased intent
priority, falling back to `balanced` (also when there is no intent). -/
def get_weights (search_intent : Option SearchIntent) : Weights :=
  match search_intent with
  | none => balanced_weights
  | some intent =>
    let priority := intent.priority.toLower
    if priority = "cheap" then cheap_weights
    else if priority = "fast" then fast_weights
    else if priority = "comfort" then comfort_weights
    else if priority = "balanced" then balanced_weights
    else balanced_weights

/-- Python `min` over a nonempty list of rationals (raises on `[]`;
the `0` default is unreachable in the embedded call sites). -/
def pyMinQ : List ℚ → ℚ
  | [] => 0
  | x :: xs => xs.foldl min x

/-- Python `max` over a nonempty list of rationals. -/
def pyMaxQ : List ℚ → ℚ
  | [] => 0
  | x :: xs => xs.foldl max x

/-- `ItineraryRanker._score_price`. -/
def score_price (itinerary : Itinerary) (all_itineraries : List Itinerary) : ℚ :=
  let prices := all_itineraries.map (fun itin => itin.price.total_usd)
  let min_price := pyMinQ prices
  let max_price := pyMaxQ prices
  if max_price = min_price then 100
  else round2 (100 * (1 - (itinerary.price.total_usd - min_price) / (max_price - min_price)))

/-- `ItineraryRanker._score_duration`. -/
def score_duration (itinerary : Itinerary) (all_itineraries : List Itinerary) : ℚ :=
  let durations := all_itineraries.map (fun itin => (itin.total_duration_minutes : ℚ))
  let min_dur := pyMinQ durations
  let max_dur := pyMaxQ durations
  if max_dur = min_dur then 100
  else round2 (100 * (1 - ((itinerary.total_duration_minutes : ℚ) - min_dur) / (max_dur - min_dur)))

/-- `ItineraryRanker._score_stops`: `{0: 100, 1: 70, 2: 40}.get(n, 10)`. -/
def score_stops (itinerary : Itinerary) : ℚ :=
  if itinerary.num_stops = 0 then 100
  else if itinerary.num_stops = 1 then 70
  else if itinerary.num_stops = 2 then 40
  else 10

/-- `ItineraryRanker._score_layovers`. -/
def score_layovers (itinerary : Itinerary) : ℚ :=
  if itinerary.layovers = [] then 100
  else
    let scores := itinerary.layovers.map (fun layover =>
      let dur_min := layover.duration_minutes
      let s : ℚ :=
        if 90 ≤ dur_min ∧ dur_min ≤ 180 then 100
        else if 60 ≤ dur_min ∧ dur_min < 90 then 80
        else if dur_min < 60 then 30
        else if 180 < dur_min ∧ dur_min ≤ 360 then 70
        else 40
      let s := if layover.overnight then s * (1/2) else s
      if layover.airport_change then s * (3/5) else s)
    round2 (scores.sum / (scores.length : ℚ))

/-- `ItineraryRanker._score_baggage`: base 50, `+25` for each included
carry-on bag and `+25` for each included checked bag, capped at 100. -/
def score_baggage (itinerary : Itinerary) : ℚ :=
  let score := itinerary.baggage.foldl (fun score bag =>
    let score := if bag.included = true ∧ bag.type = BaggageType.carry_on then score + 25 else score
    if bag.included = true ∧ bag.type = BaggageType.checked then score + 25 else score) 50
  min score 100

/-- The `risk_penalties` table of `_score_risk` (every enum member is a key,
so the `.get(risk, 5)` default never fires). -/
def risk_penalty : RiskFlag → ℚ
  | .self_transfer => 40
  | .tight_connection => 15
  | .overnight_layover => 10
  | .separate_tickets => 35
  | .airport_change => 20
  | .long_layover => 5
  | .red_eye => 8

/-- `ItineraryRanker._score_risk`. -/
def score_risk (itinerary : Itinerary) : ℚ :=
  max (itinerary.risk_flags.foldl (fun s r => s - risk_penalty r) 100) 0

/-- `ItineraryRanker._score_reliability` (`if signals.on_time_proxy:` is
falsy both for `None` and for `0.0`). -/
def score_reliability (itinerary : Itinerary) : ℚ :=
  let score : ℚ := 50 + itinerary.provider.trust_score * 25
  let score :=
    match itinerary.signals.on_time_proxy with
    | some p => if p ≠ 0 then score + p * 25 else score
    | none => score
  round2 (min score 100)

/-- The weighted total computed in `_calculate_score`. -/
def weighted_total (w : Weights) (b : ScoreBreakdown) : ℚ :=
  w.price * b.price_score + w.duration * b.duration_score + w.stops * b.stops_score +
    w.layover * b.layover_score + w.baggage * b.baggage_score + w.risk * b.risk_score +
    w.reliability * b.reliability_score

/-- `ItineraryRanker._calculate_score`: build the breakdown, assign
`score = round(total, 2)` and the breakdown to the itinerary. -/
def calculate_score (w : Weights) (all_itineraries : List Itinerary)
    (itinerary : Itinerary) : Itinerary :=
  let breakdown : ScoreBreakdown :=
    { price_score := score_price itinerary all_itineraries,
      duration_score := score_duration itinerary all_itineraries,
      stops_score := score_stops itinerary,
      layover_score := score_layovers itinerary,
      baggage_score := score_baggage itinerary,
      risk_score := score_risk itinerary,
      reliability_score := score_reliability itinerary,
      weights := w }
  { itinerary with
    score := some (round2 (weighted_total w breakdown)),
    score_breakdown := some breakdown }

/-- Python `min(xs, key=f)` (first element attaining the minimum). -/
def pyMinBy (f : Itinerary → ℚ) : List Itinerary → Option Itinerary
  | [] => none
  | x :: xs => some (xs.foldl (fun best y => if f y < f best then y else best) x)

/-- `f"{q:.0f}"`: float formatted with no decimals (round half to even). -/
def fmt0 (q : ℚ) : String := toString (pyRound q)

/-- `f"{q:.1f}"` for a nonnegative value: one decimal, round half to even. -/
def fmt1 (q : ℚ) : String :=
  let n := pyRound (q * 10)
  toString (n.ediv 10) ++ "." ++ toString (n.emod 10)

/-- `ItineraryRanker._generate_explanation`. -/
def generate_explanation (itinerary : Itinerary) (all_ranked : List Itinerary) : String :=
  match itinerary.score_breakdown with
  | none => "No scoring data available"
  | some _ =>
    let cheapest := (pyMinBy (fun x => x.price.total_usd) all_ranked).getD default
    let parts : List String :=
      if itinerary.itinerary_id = cheapest.itinerary_id then ["Cheapest option"]
      else ["$" ++ fmt0 (itinerary.price.total_usd - cheapest.price.total_usd) ++ " more than cheapest"]
    let parts := parts ++
      (if itinerary.is_direct then ["direct flight"]
       else [toString itinerary.num_stops ++ " stop(s)"])
    let parts := parts ++ itinerary.layovers.map (fun layover =>
      let dur_hrs : ℚ := (layover.duration_minutes : ℚ) / 60
      if 3/2 ≤ dur_hrs ∧ dur_hrs ≤ 3 then fmt1 dur_hrs ++ "h layover (comfortable)"
      else if dur_hrs < 3/2 then fmt1 dur_hrs ++ "h layover (tight)"
      else fmt1 dur_hrs ++ "h layover (long)")
    let carry_on := itinerary.baggage.any (fun b =>
      b.included && decide (b.type = BaggageType.carry_on))
    let checked := itinerary.baggage.any (fun b =>
      b.included && decide (b.type = BaggageType.checked))
    let parts := parts ++
      (if carry_on && checked then ["bags included"]
       else if carry_on then ["carry-on included"]
       else [])
    let critical_risks := itinerary.risk_flags.filter (fun r =>
      decide (r = RiskFlag.self_transfer ∨ r = RiskFlag.separate_tickets))
    let parts := parts ++
      (match critical_risks with
       | [] => []
       | r :: _ => ["⚠️ " ++ (r.value.replace "_" " ")])
    pyCapitalize (pyJoin ". " parts) ++ "."

/-- `x.score or 0`: falsy-coalescing (both `None` and `0.0` give `0`). -/
def scoreOr0 (x : Itinerary) : ℚ :=
  match x.score with
  | some s => s
  | none => 0

/-- The sort order of `sorted(itineraries, key=lambda x: x.score or 0,
reverse=True)`: descending by score, stable. -/
def ScoreDescLe (x y : Itinerary) : Prop := scoreOr0 y ≤ scoreOr0 x

instance : DecidableRel ScoreDescLe := fun x y => by unfold ScoreDescLe; infer_instance

/-- `ItineraryRanker.rank_itineraries`: score every itinerary against the
whole batch, sort by score descending (stable), then attach explanations. -/
def rank_itineraries (search_intent : Option SearchIntent)
    (itineraries : List Itinerary) : List Itinerary :=
  if itineraries = [] then []
  else
    let w := get_weights search_intent
    let scored := itineraries.map (calculate_score w itineraries)
    let ranked := List.insertionSort ScoreDescLe scored
    ranked.map (fun itin => { itin with explanation := some (generate_explanation itin ranked) })

end ItineraryRanker

/-! ### Price prediction (`app/core/price_prediction.py`, class `PricePredictor`) -/

/-- `PriceReasoning` (the advisory record returned by `_analyze`; the advice
values are the strings "buy_now", "monitor", "wait"). -/
structure PriceReasoning where
  advice : String
  confidence_score : ℚ
  predicted_change_usd : ℚ
  factors : List String
deriving DecidableEq

namespace PricePredictor

/-- `PricePredictor._analyze`, parametrised by the three derived inputs it
computes first: `days_to_departure = (intent.departure_date - now).days`,
`day_of_week = departure_date.weekday()` (0 = Monday), and
`month = departure_date.month`. -/
def analyze (days_to_departure : ℤ) (day_of_week : ℤ) (month : ℤ) : PriceReasoning :=
  let advice := "monitor"
  let confidence : ℚ := 1/2
  let predicted_change : ℚ := 0
  let factors : List String := []
  -- 1. Advance Purchase Logic
  let (advice, confidence, predicted_change, factors) :=
    if days_to_departure < 14 then
      ("buy_now", (9/10 : ℚ), (50 : ℚ),
        factors ++ ["Last minute booking - prices rising daily"])
    else if 14 ≤ days_to_departure ∧ days_to_departure ≤ 21 then
      ("buy_now", 4/5, 20, factors ++ ["Entering high-price window (< 21 days)"])
    else if 21 < days_to_departure ∧ days_to_departure ≤ 60 then
      ("monitor", 3/5, predicted_change, factors ++ ["Standard booking window"])
    else if days_to_departure > 90 then
      ("wait", 3/4, -30, factors ++ ["Booking too early - airlines drop prices ~60 days out"])
    else (advice, confidence, predicted_change, factors)
  -- 2. Day of Week Logic
  let (advice, predicted_change, factors) :=
    if day_of_week = 4 ∨ day_of_week = 6 then
      let factors := factors ++ ["Weekend departure premium applied"]
      if advice = "monitor" then
        ("wait", predicted_change - 15, factors ++ ["Flying Tue/Wed could save ~10%"])
      else (advice, predicted_change, factors)
    else (advice, predicted_change, factors)
  let (advice, factors) :=
    if day_of_week = 1 ∨ day_of_week = 2 then
      let factors := factors ++ ["Mid-week savings detected"]
      if advice = "monitor" then ("buy_now", factors) else (advice, factors)
    else (advice, factors)
  -- 3. Seasonality (Northern Hemisphere)
  let (advice, predicted_change, factors) :=
    if month = 6 ∨ month = 7 ∨ month = 8 ∨ month = 12 then
      let factors := factors ++ ["High season demand"]
      if advice = "wait" then ("monitor", predicted_change + 10, factors)
      else (advice, predicted_change, factors)
    else (advice, predicted_change, factors)
  { advice := advice,
    confidence_score := min confidence (19/20),
    predicted_change_usd := predicted_change,
    factors := factors }

end PricePredictor

/-! ### Cache key (`app/core/cache.py`, class `CacheManager`) -/

/-- Python `str(x or "any")` for `x : Optional[int]`: `or` falls through to
`"any"` both when `x` is `None` and when `x == 0` (zero is falsy). -/
def pyStrOrAny : Option ℤ → String
  | some n => if n = 0 then "any" else toString n
  | none => "any"

namespace CacheManager

/-- `CacheManager._generate_cache_key`: colon-joined parts, with the
`nonstop` part appended only when `nonstop_only` is truthy and the
`maxprice{int}` part only when `max_price_usd` is truthy (so neither `None`
nor `0.0`). -/
def generate_cache_key (intent : SearchIntent) : String :=
  let date_str := intent.departure_date.format
  let key_parts : List String :=
    ["search",
     pyJoin "-" (List.insertionSort (α := String) (· ≤ ·) intent.origins),
     pyJoin "-" (List.insertionSort (α := String) (· ≤ ·) intent.destinations),
     date_str,
     intent.cabin_class.value,
     pyStrOrAny intent.max_stops,
     intent.priority]
  let key_parts := key_parts ++ (if intent.nonstop_only then ["nonstop"] else [])
  let key_parts := key_parts ++
    (match intent.max_price_usd with
     | some p => if p ≠ 0 then ["maxprice" ++ toString (pyTrunc p)] else []
     | none => [])
  pyJoin ":" key_parts

end CacheManager

/-! ### Intent filtering (`app/services/orchestrator.py`,
`SearchOrchestrator._filter_by_intent`) -/

namespace SearchOrchestrator

/-- The per-itinerary keep test of `_filter_by_intent` (the body of the
loop; each `continue` becomes a `false` branch).  `itin.legs[0]` raises on
an empty list in Python; the schema guarantees at least one leg, so the
`[]` branch is unreachable.  Note the truthiness tests: `if
intent.max_price_usd and ...` and `if intent.max_duration_hours:` skip the
corresponding filters when the bound is `None` or `0`. -/
def keeps_itinerary (intent : SearchIntent) (itin : Itinerary) : Bool :=
  match itin.legs with
  | [] => false
  | l0 :: rest =>
    let origin_match := decide (l0.origin.code ∈ intent.origins)
    let destination_match :=
      decide (((l0 :: rest).getLastD default).destination.code ∈ intent.destinations)
    if !(origin_match && destination_match) then false
    else if intent.nonstop_only && !itin.is_direct then false
    else if (match intent.max_stops with
             | some m => decide (itin.num_stops > m)
             | none => false) then false
    else if (match intent.max_price_usd with
             | some p => !decide (p = 0) && decide (itin.price.total_usd > p)
             | none => false) then false
    else if (match intent.max_duration_hours with
             | some hrs => !decide (hrs = 0) &&
                 decide ((itin.total_duration_minutes : ℚ) > hrs * 60)
             | none => false) then false
    else if intent.no_red_eyes &&
        itin.legs.any (fun leg => decide (redEyeDeparture leg)) then false
    else if intent.no_overnight_layovers &&
        itin.layovers.any (fun layover => layover.overnight) then false
    else true

/-- `SearchOrchestrator._filter_by_intent`. -/
def filter_by_intent (itineraries : List Itinerary) (intent : SearchIntent) :
    List Itinerary :=
  itineraries.filter (keeps_itinerary intent)

end SearchOrchestrator

/-! ### Spec-side definitions (transcribed from the claims, for comparison
with the embedded code) -/

/-- The baggage sub-score as the spec/claim words it: base 50, `+25` if ANY
included carry-on is present (regardless of how many), `+25` if ANY included
checked bag is present, capped at 100. -/
def baggage_score_claim (itin : Itinerary) : ℚ :=
  min (50 +
    (if itin.baggage.any (fun b => b.included && decide (b.type = BaggageType.carry_on))
      then 25 else 0) +
    (if itin.baggage.any (fun b => b.included && decide (b.type = BaggageType.checked))
      then 25 else 0)) 100

/-- Number of included bags of a given type in an itinerary. -/
def included_bag_count (itin : Itinerary) (t : BaggageType) : ℕ :=
  (itin.baggage.filter (fun b => b.included && decide (b.type = t))).length

/-- Python `sorted` on a list of strings. -/
def sortStrings (l : List String) : List String :=
  List.insertionSort (α := String) (· ≤ ·) l

/-- The cache key exactly as the claim words the grammar: the stops field is
the intent's `max_stops` whenever one is specified (including `0`), and the
`maxprice{int}` suffix appears whenever a max-price ceiling is set (even a
ceiling of `0`). -/
def cache_key_claim (intent : SearchIntent) : String :=
  pyJoin ":"
    (["search",
      pyJoin "-" (sortStrings intent.origins),
      pyJoin "-" (sortStrings intent.destinations),
      intent.departure_date.format,
      intent.cabin_class.value,
      (match intent.max_stops with
       | some n => toString n
       | none => "any"),
      intent.priority]
     ++ (if intent.nonstop_only then ["nonstop"] else [])
     ++ (match intent.max_price_usd with
         | some p => ["maxprice" ++ toString (pyTrunc p)]
         | none => []))

/-- The cache key grammar as amended: the stops field is `max_stops` only
when it is specified AND nonzero (`max_stops = 0` yields the literal
`"any"`), and the `maxprice{int}` suffix appears only when the ceiling is
set AND nonzero. -/
def cache_key_amended (intent : SearchIntent) : String :=
  pyJoin ":"
    (["search",
      pyJoin "-" (sortStrings intent.origins),
      pyJoin "-" (sortStrings intent.destinations),
      intent.departure_date.format,
      intent.cabin_class.value,
      (match intent.max_stops with
       | some n => if n = 0 then "any" else toString n
       | none => "any"),
      intent.priority]
     ++ (if intent.nonstop_only then ["nonstop"] else [])
     ++ (match intent.max_price_usd with
         | some p => if p = 0 then [] else ["maxprice" ++ toString (pyTrunc p)]
         | none => []))

/-- The risk-flag specification of the claim, flag by flag: which flags must
be present in the recomputed risk set of an itinerary. -/
def riskFlagSpec (itin : Itinerary) : RiskFlag → Prop
  | .tight_connection => ∃ l ∈ itin.layovers, l.duration_minutes < 90
  | .long_layover => ∃ l ∈ itin.layovers, 360 ≤ l.duration_minutes ∧ l.duration_minutes < 720
  | .overnight_layover => ∃ l ∈ itin.layovers, l.duration_minutes ≥ 720 ∨ l.overnight = true
  | .airport_change => ∃ l ∈ itin.layovers, l.airport_change = true
  | .red_eye => ∃ leg ∈ itin.legs, redEyeDeparture leg
  | _ => False

/-- The survival condition of the claim, as stated: in particular the
max-price clause applies whenever a ceiling is set, including a ceiling of
`0`, and likewise the max-duration clause. -/
def survives_claim (intent : SearchIntent) (itin : Itinerary) : Prop :=
  ((itin.legs.headD default).origin.code ∈ intent.origins) ∧
  ((itin.legs.getLastD default).destination.code ∈ intent.destinations) ∧
  (intent.nonstop_only = true → itin.is_direct = true) ∧
  (match intent.max_stops with
   | some m => itin.num_stops ≤ m
   | none => True) ∧
  (match intent.max_price_usd with
   | some p => itin.price.total_usd ≤ p
   | none => True) ∧
  (match intent.max_duration_hours with
   | some hrs => (itin.total_duration_minutes : ℚ) ≤ hrs * 60
   | none => True) ∧
  (intent.no_red_eyes = true → ∀ leg ∈ itin.legs, ¬redEyeDeparture leg) ∧
  (intent.no_overnight_layovers = true → ∀ l ∈ itin.layovers, l.overnight = false)

/-- The survival condition as amended: the max-price and max-duration
clauses only constrain when the respective ceiling is set AND nonzero
(Python truthiness skips the filter for a `0` ceiling). -/
def survives_amended (intent : SearchIntent) (itin : Itinerary) : Prop :=
  ((itin.legs.headD default).origin.code ∈ intent.origins) ∧
  ((itin.legs.getLastD default).destination.code ∈ intent.destinations) ∧
  (intent.nonstop_only = true → itin.is_direct = true) ∧
  (match intent.max_stops with
   | some m => itin.num_stops ≤ m
   | none => True) ∧
  (match intent.max_price_usd with
   | some p => p ≠ 0 → itin.price.total_usd ≤ p
   | none => True) ∧
  (match intent.max_duration_hours with
   | some hrs => hrs ≠ 0 → (itin.total_duration_minutes : ℚ) ≤ hrs * 60
   | none => True) ∧
  (intent.no_red_eyes = true → ∀ leg ∈ itin.legs, ¬redEyeDeparture leg) ∧
  (intent.no_overnight_layovers = true → ∀ l ∈ itin.layovers, l.overnight = false)

/-! ### Concrete example values (inputs for witnesses and counterexamples) -/

/-- JFK airport record. -/
def exAirportJFK : Airport :=
  { code := "JFK", name := "John F Kennedy Intl", city := "New York", country := "USA" }

/-- LAX airport record. -/
def exAirportLAX : Airport :=
  { code := "LAX", name := "Los Angeles Intl", city := "Los Angeles", country := "USA" }

/-- A direct morning JFK-to-LAX leg (departs 08:00, arrives 11:30). -/
def exLeg : Leg :=
  { leg_id := "leg_1", origin := exAirportJFK, destination := exAirportLAX,
    departure_time := 480, arrival_time := 690, duration_minutes := 210,
    airline := "American Airlines", airline_code := "AA", flight_number := "100",
    cabin_class := .economy }

/-- Provider A, trust 1. -/
def exProviderA : ProviderMetadata :=
  { provider_name := "ProviderA", provider_id := "pA", deeplink := "https://a.example/1",
    last_updated := 0, trust_score := 1 }

/-- Provider B, trust 0. -/
def exProviderB : ProviderMetadata :=
  { provider_name := "ProviderB", provider_id := "pB", deeplink := "https://b.example/1",
    last_updated := 0, trust_score := 0 }

/-- A price breakdown whose total is the given amount. -/
def exPrice (q : ℚ) : PriceBreakdown := { base_fare_usd := q, taxes_usd := 0, total_usd := q }

/-- A minimal single-leg itinerary: direct JFK→LAX, 100 USD, provider A. -/
def exItinBase : Itinerary :=
  { itinerary_id := "itin_A", legs := [exLeg], num_stops := 0,
    total_duration_minutes := 210, is_direct := true, price := exPrice 100,
    fare_rules := {}, provider := exProviderA }

/-- An included carry-on bag. -/
def exCarryOnBag : Baggage := { type := .carry_on, quantity := 1, included := true }

/-- An itinerary with three included carry-on bags and no checked bag. -/
def exBag3 : Itinerary :=
  { exItinBase with baggage := [exCarryOnBag, exCarryOnBag, exCarryOnBag] }

/-- Duplicate candidate A: the base itinerary (price 100, provider A). -/
def exDupA : Itinerary := exItinBase

/-- Duplicate candidate B: identical legs, price 120, provider B. -/
def exDupB : Itinerary :=
  { exItinBase with itinerary_id := "itin_B", price := exPrice 120, provider := exProviderB }

/-- The record deduplication keeps for `[exDupA, exDupB]`: candidate A with
the "also available" note appended. -/
def exDupWinner : Itinerary :=
  { exDupA with provider :=
      { exProviderA with notes := ["Also available via: ProviderB"] } }

/-- Intent with `max_stops = 0` and a max-price ceiling of `0`
(the inputs on which the cache-key claim and the filter claim fail). -/
def exIntentC2 : SearchIntent :=
  { origins := ["JFK"], destinations := ["LAX"], departure_date := ⟨2026, 7, 1⟩,
    max_stops := some 0, max_price_usd := some 0 }

/-- Intent with a zero max-price ceiling and a zero max-duration ceiling;
Python truthiness silently disables both filters. -/
def exIntentC7 : SearchIntent :=
  { origins := ["JFK"], destinations := ["LAX"], departure_date := ⟨2026, 7, 1⟩,
    max_price_usd := some 0, max_duration_hours := some 0 }

/-- An unconstrained JFK→LAX intent. -/
def exIntentPlain : SearchIntent :=
  { origins := ["JFK"], destinations := ["LAX"], departure_date := ⟨2026, 7, 1⟩ }

/-- An intent whose origin list is in non-sorted order. -/
def exIntentC8 : SearchIntent :=
  { origins := ["LAX", "JFK"], destinations := ["SFO"], departure_date := ⟨2026, 7, 1⟩ }

/-! ### Proofs -/

/-- The baggage fold of `_score_baggage` adds 25 per included carry-on and
25 per included checked bag to its accumulator. -/
theorem baggage_foldl_eq (bags : List Baggage) (init : ℚ) :
    bags.foldl (fun score bag =>
      let score := if bag.included = true ∧ bag.type = BaggageType.carry_on then score + 25 else score
      if bag.included = true ∧ bag.type = BaggageType.checked then score + 25 else score) init
    = init
      + 25 * ((bags.filter (fun b => b.included && decide (b.type = BaggageType.carry_on))).length : ℚ)
      + 25 * ((bags.filter (fun b => b.included && decide (b.type = BaggageType.checked))).length : ℚ) := by
  induction bags generalizing init with
  | nil => simp
  | cons b bs ih =>
    simp only [List.foldl_cons, List.filter_cons, ih]
    by_cases h1 : b.included = true ∧ b.type = BaggageType.carry_on <;>
      by_cases h2 : b.included = true ∧ b.type = BaggageType.checked <;>
        simp [h1, h2, Bool.and_eq_true, decide_eq_true_eq] <;> (try push_cast) <;> ring

/-- C1 (amended): the baggage sub-score is 50 plus 25 for EACH included
carry-on bag and 25 for EACH included checked bag, capped at 100; in
particular an itinerary with three included carry-on bags and no checked
bag scores 100, not 75. -/
theorem score_baggage_per_bag (itin : Itinerary) :
    ItineraryRanker.score_baggage itin =
      min (50 + 25 * (included_bag_count itin .carry_on : ℚ)
              + 25 * (included_bag_count itin .checked : ℚ)) 100 := by
  unfold ItineraryRanker.score_baggage included_bag_count
  rw [baggage_foldl_eq]

/-- C1 (counterexample): on an itinerary with three included carry-on bags
and no checked bag, the code's baggage sub-score is 100 while the claim
says it is 75. -/
theorem score_baggage_claim_counterexample :
    ItineraryRanker.score_baggage exBag3 = 100 ∧ baggage_score_claim exBag3 = 75 ∧
      ItineraryRanker.score_baggage exBag3 ≠ baggage_score_claim exBag3 := by
  have hne : (BaggageType.carry_on = BaggageType.checked) = False := by
    simp
  norm_num [ItineraryRanker.score_baggage, baggage_score_claim, exBag3, exItinBase,
    exCarryOnBag, min_def, hne]

/-- C3: with departure 10 days out, on a Friday (weekday 4), in July
(month 7), the advance-purchase step sets `buy_now`/0.9/+50; the weekend
rule appends its factor but does not override (advice is not `monitor`),
and the season rule appends its factor but does not override (advice is
not `wait`); the final advisory is `buy_now`, confidence 0.9, predicted
change +50. -/
theorem analyze_last_minute_friday_july :
    PricePredictor.analyze 10 4 7 =
      { advice := "buy_now", confidence_score := 9/10, predicted_change_usd := 50,
        factors := ["Last minute booking - prices rising daily",
                    "Weekend departure premium applied",
                    "High season demand"] } := by
  have h1 : ("buy_now" = "monitor") = False := by decide
  have h2 : ("buy_now" = "wait") = False := by decide
  norm_num [PricePredictor.analyze, min_def, h1, h2]

/-- Sorting a list of strings depends only on the multiset of its elements:
two lists that are permutations of one another sort to the same list. -/
theorem sortStrings_eq_of_perm {l1 l2 : List String} (h : l1.Perm l2) :
    sortStrings l1 = sortStrings l2 := by
  have hs1 : List.Sorted (fun a b : String => a ≤ b) (sortStrings l1) :=
    List.sorted_insertionSort _ l1
  have hs2 : List.Sorted (fun a b : String => a ≤ b) (sortStrings l2) :=
    List.sorted_insertionSort _ l2
  have hp : (sortStrings l1).Perm (sortStrings l2) :=
    ((List.perm_insertionSort _ l1).trans h).trans (List.perm_insertionSort _ l2).symm
  exact List.eq_of_perm_of_sorted hp hs1 hs2

/-- C2 (counterexample): with `max_stops = 0` and a max-price ceiling of
`0`, the code renders the stops field as `"any"` (Python `or` treats `0`
as falsy) and omits the `maxprice` suffix, while the claim's grammar says
the stops field is `"0"` and the suffix `":maxprice0"` is present. -/
theorem cache_key_claim_counterexample :
    CacheManager.generate_cache_key exIntentC2 =
        "search:JFK:LAX:2026-07-01:economy:any:balanced" ∧
      cache_key_claim exIntentC2 =
        "search:JFK:LAX:2026-07-01:economy:0:balanced:maxprice0" ∧
      CacheManager.generate_cache_key exIntentC2 ≠ cache_key_claim exIntentC2 := by
  decide

/-- C2 (amended): for every intent, the generated cache key follows the
claimed grammar with two corrections: the stops field is `max_stops` only
when it is set and nonzero (`max_stops = 0` renders as `"any"`), and the
`:maxprice{int}` suffix appears only when the ceiling is set and nonzero. -/
theorem generate_cache_key_follows_amended_grammar (intent : SearchIntent) :
    CacheManager.generate_cache_key intent = cache_key_amended intent := by
  unfold CacheManager.generate_cache_key cache_key_amended pyStrOrAny sortStrings
  cases hms : intent.max_stops <;> cases hmp : intent.max_price_usd <;>
    simp [hms, hmp, ite_not]

/-- C8: reordering the origin list and/or the destination list of an intent
(keeping everything else identical) does not change the generated cache
key, because both lists are sorted before joining. -/
theorem cache_key_order_invariant (intent : SearchIntent) (os ds : List String)
    (ho : os.Perm intent.origins) (hd : ds.Perm intent.destinations) :
    CacheManager.generate_cache_key { intent with origins := os, destinations := ds } =
      CacheManager.generate_cache_key intent := by
  unfold CacheManager.generate_cache_key
  have ho' : List.insertionSort (α := String) (· ≤ ·) os =
      List.insertionSort (α := String) (· ≤ ·) intent.origins := sortStrings_eq_of_perm ho
  have hd' : List.insertionSort (α := String) (· ≤ ·) ds =
      List.insertionSort (α := String) (· ≤ ·) intent.destinations := sortStrings_eq_of_perm hd
  simp only [ho', hd']

/-- C8 (witness): `cache_key(origins = ["JFK","LAX"])` equals
`cache_key(origins = ["LAX","JFK"])` for otherwise identical intents. -/
theorem cache_key_order_invariant_witness :
    CacheManager.generate_cache_key
        { exIntentC8 with origins := ["JFK", "LAX"], destinations := ["SFO"] } =
      CacheManager.generate_cache_key exIntentC8 :=
  cache_key_order_invariant exIntentC8 ["JFK", "LAX"] ["SFO"] (by decide) (by decide)

/-- Membership in the per-layover risk list, unfolded condition by
condition (the `elif` guard of the long-layover branch is subsumed by
`360 ≤ duration`, since that contradicts `duration < 90`). -/
theorem mem_layoverRiskList (l : Layover) (f : RiskFlag) :
    f ∈ ItineraryNormalizer.layoverRiskList l ↔
      (f = .tight_connection ∧ l.duration_minutes < 90) ∨
      (f = .long_layover ∧ 360 ≤ l.duration_minutes ∧ l.duration_minutes < 720) ∨
      (f = .overnight_layover ∧ (l.duration_minutes ≥ 720 ∨ l.overnight = true)) ∨
      (f = .airport_change ∧ l.airport_change = true) := by
  unfold ItineraryNormalizer.layoverRiskList
  split_ifs <;> cases f <;> simp_all <;> first | omega | tauto

/-- C6: `_detect_risks` returns a duplicate-free flag list whose members
are exactly those the spec requires: per layover, `< 90` min gives
`tight_connection`, `[360, 720)` gives `long_layover`, `≥ 720` or the
overnight flag gives `overnight_layover`, the airport-change flag gives
`airport_change`; `red_eye` is present iff some leg departs with local
hour in [22:00, 05:00); no other flag ever appears. -/
theorem detect_risks_spec (itin : Itinerary) :
    (ItineraryNormalizer.detect_risks itin).Nodup ∧
      ∀ f, f ∈ ItineraryNormalizer.detect_risks itin ↔ riskFlagSpec itin f := by
  refine ⟨List.nodup_dedup _, fun f => ?_⟩
  have hred : (f ∈ (if itin.legs.any (fun leg => decide (redEyeDeparture leg)) then
      [RiskFlag.red_eye] else [])) ↔ (f = .red_eye ∧ ∃ leg ∈ itin.legs, redEyeDeparture leg) := by
    split_ifs with hany
    · rw [List.any_eq_true] at hany
      simp only [List.mem_singleton]
      constructor
      · rintro rfl
        refine ⟨rfl, ?_⟩
        obtain ⟨leg, hm, hdec⟩ := hany
        exact ⟨leg, hm, of_decide_eq_true hdec⟩
      · exact fun h => h.1
    · rw [List.any_eq_true] at hany
      push_neg at hany
      simp only [List.not_mem_nil, false_iff, not_and]
      rintro rfl ⟨leg, hm, hre⟩
      exact absurd (decide_eq_true hre) (by simpa using hany leg hm)
  unfold ItineraryNormalizer.detect_risks
  rw [List.mem_dedup, List.mem_append, List.mem_flatMap, hred]
  simp only [mem_layoverRiskList]
  cases f <;> simp [riskFlagSpec]

/-- C5: after `normalize`, `num_stops = len(legs) - 1`, `is_direct` holds
iff `num_stops = 0`, and `total_duration_minutes` is the minutes between
the last leg's arrival and the first leg's departure. -/
theorem normalize_derived_fields (itin : Itinerary) (l0 ln : Leg)
    (hh : itin.legs.head? = some l0) (hg : itin.legs.getLast? = some ln) :
    (ItineraryNormalizer.normalize itin).num_stops = (itin.legs.length : ℤ) - 1 ∧
      ((ItineraryNormalizer.normalize itin).is_direct = true ↔
        (ItineraryNormalizer.normalize itin).num_stops = 0) ∧
      (ItineraryNormalizer.normalize itin).total_duration_minutes =
        ln.arrival_time - l0.departure_time := by
  rcases hl : itin.legs with _ | ⟨a, rest⟩
  · rw [hl] at hh
    simp at hh
  · rw [hl] at hh hg
    obtain rfl : a = l0 := by simpa using hh
    unfold ItineraryNormalizer.normalize
    simp [hl, List.getLastD_eq_getLast?, hg]

/-- C5 (witness): the derived-field statement instantiated on a concrete
single-leg itinerary. -/
theorem normalize_derived_fields_witness :
    exItinBase.legs.head? = some exLeg ∧ exItinBase.legs.getLast? = some exLeg ∧
      (ItineraryNormalizer.normalize exItinBase).total_duration_minutes =
        exLeg.arrival_time - exLeg.departure_time :=
  ⟨by decide, by decide,
    (normalize_derived_fields exItinBase exLeg exLeg (by decide) (by decide)).2.2⟩

/-- `normalize` does not change the legs of an itinerary. -/
theorem normalize_legs (itin : Itinerary) :
    (ItineraryNormalizer.normalize itin).legs = itin.legs := rfl

/-- `normalize` does not change the layovers of an itinerary. -/
theorem normalize_layovers (itin : Itinerary) :
    (ItineraryNormalizer.normalize itin).layovers = itin.layovers := rfl

/-- `_detect_risks` reads only the legs and layovers of its argument. -/
theorem detect_risks_congr {a b : Itinerary} (hl : a.legs = b.legs)
    (hy : a.layovers = b.layovers) :
    ItineraryNormalizer.detect_risks a = ItineraryNormalizer.detect_risks b := by
  unfold ItineraryNormalizer.detect_risks
  rw [hl, hy]

/-- C10: `normalize` is idempotent — a second application reproduces the
same `num_stops`, `is_direct` and `total_duration_minutes`, and the same
risk flags (compared as sets). -/
theorem normalize_idempotent (itin : Itinerary) :
    (ItineraryNormalizer.normalize (ItineraryNormalizer.normalize itin)).num_stops =
        (ItineraryNormalizer.normalize itin).num_stops ∧
      (ItineraryNormalizer.normalize (ItineraryNormalizer.normalize itin)).is_direct =
        (ItineraryNormalizer.normalize itin).is_direct ∧
      (ItineraryNormalizer.normalize (ItineraryNormalizer.normalize itin)).total_duration_minutes =
        (ItineraryNormalizer.normalize itin).total_duration_minutes ∧
      ∀ f, f ∈ (ItineraryNormalizer.normalize (ItineraryNormalizer.normalize itin)).risk_flags ↔
        f ∈ (ItineraryNormalizer.normalize itin).risk_flags := by
  have e1 : ∀ x : Itinerary,
      (ItineraryNormalizer.normalize x).num_stops = (x.legs.length : ℤ) - 1 := fun _ => rfl
  have e2 : ∀ x : Itinerary,
      (ItineraryNormalizer.normalize x).is_direct = decide ((x.legs.length : ℤ) - 1 = 0) :=
    fun _ => rfl
  have e4 : ∀ x : Itinerary,
      (ItineraryNormalizer.normalize x).risk_flags = ItineraryNormalizer.detect_risks x :=
    fun _ => detect_risks_congr rfl rfl
  have e5 : ∀ (x : Itinerary) (a : Leg) (rest : List Leg), x.legs = a :: rest →
      (ItineraryNormalizer.normalize x).total_duration_minutes =
        ((a :: rest).getLastD default).arrival_time - a.departure_time := by
    intro x a rest hx
    unfold ItineraryNormalizer.normalize
    simp [hx]
  have e6 : ∀ x : Itinerary, x.legs = [] →
      (ItineraryNormalizer.normalize x).total_duration_minutes = x.total_duration_minutes := by
    intro x hx
    unfold ItineraryNormalizer.normalize
    simp [hx]
  refine ⟨?_, ?_, ?_, ?_⟩
  · rw [e1, e1, normalize_legs]
  · rw [e2, e2, normalize_legs]
  · rcases hl : itin.legs with _ | ⟨a, rest⟩
    · rw [e6 _ (by rw [normalize_legs, hl]), e6 _ hl]
    · rw [e5 _ a rest (by rw [normalize_legs, hl]), e5 _ a rest hl]
  · intro f
    rw [e4, e4, detect_risks_congr (normalize_legs itin) (normalize_layovers itin)]

/-- C4: `_select_best` keeps an element of the group that is minimal under
the sort key (total price ascending, provider trust descending), returning
it with the "Also available via" note logic applied; and on the concrete
two-candidate group with identical leg signatures priced 100 and 120,
`deduplicate` yields exactly one record, price 100, whose notes mention the
other provider exactly once, and applying `deduplicate` twice equals
applying it once. -/
theorem select_best_minimal_and_dedup_example :
    (∀ dups : List Itinerary, dups ≠ [] →
      ∃ b, b ∈ dups ∧ (∀ x ∈ dups, ItineraryDeduplicator.DedupLe b x) ∧
        ItineraryDeduplicator.select_best dups =
          ItineraryDeduplicator.with_also_available_note dups b) ∧
    (ItineraryDeduplicator.deduplicate [exDupA, exDupB] = [exDupWinner] ∧
      exDupWinner.price.total_usd = 100 ∧
      exDupWinner.provider.notes.count "Also available via: ProviderB" = 1 ∧
      ItineraryDeduplicator.deduplicate (ItineraryDeduplicator.deduplicate [exDupA, exDupB]) =
        ItineraryDeduplicator.deduplicate [exDupA, exDupB]) := by
  constructor
  · intro dups hne
    have hperm := List.perm_insertionSort ItineraryDeduplicator.DedupLe dups
    have hsorted := List.sorted_insertionSort ItineraryDeduplicator.DedupLe dups
    rcases hs : List.insertionSort ItineraryDeduplicator.DedupLe dups with _ | ⟨b, t⟩
    · rw [hs] at hperm
      exact absurd (hperm.symm.eq_nil) hne
    · rw [hs] at hperm hsorted
      refine ⟨b, hperm.mem_iff.mp (List.mem_cons_self b t), ?_, ?_⟩
      · intro x hx
        rcases List.mem_cons.mp (hperm.mem_iff.mpr hx) with h | h
        · exact h ▸ ItineraryDeduplicator.DedupLe.refl b
        · exact List.rel_of_sorted_cons hsorted x h
      · unfold ItineraryDeduplicator.select_best
        rw [hs]
        rfl
  · refine ⟨by decide, by decide, by decide, by decide⟩

/-- C4 (witness): the minimal-winner statement instantiated on the concrete
two-candidate group. -/
theorem select_best_minimal_witness :
    ∃ b, b ∈ [exDupA, exDupB] ∧
      (∀ x ∈ [exDupA, exDupB], ItineraryDeduplicator.DedupLe b x) ∧
      ItineraryDeduplicator.select_best [exDupA, exDupB] =
        ItineraryDeduplicator.with_also_available_note [exDupA, exDupB] b :=
  select_best_minimal_and_dedup_example.1 [exDupA, exDupB] (by decide)

/-- C7 (amended): a candidate with at least one leg survives
`_filter_by_intent` iff the first leg's origin and last leg's destination
match the intent, nonstop-only implies direct, any set max-stops bound is
respected, any set AND NONZERO max-price and max-duration ceilings are
respected (Python truthiness disables those two filters for a `0`
ceiling), no-red-eyes excludes red-eye departures, and
no-overnight-layovers excludes layovers flagged overnight. -/
theorem keeps_itinerary_iff (intent : SearchIntent) (itin : Itinerary)
    (h : itin.legs ≠ []) :
    SearchOrchestrator.keeps_itinerary intent itin = true ↔
      survives_amended intent itin := by
  have chain : ∀ (c rest : Bool), ((if c = true then false else rest) = true) ↔
      (c = false ∧ rest = true) := by
    intro c rest
    cases c <;> simp
  rcases hl : itin.legs with _ | ⟨l0, rest⟩
  · exact absurd hl h
  unfold SearchOrchestrator.keeps_itinerary survives_amended
  rw [hl]
  simp only [List.headD_cons, List.getLastD_eq_getLast?, chain]
  constructor
  · rintro ⟨h1, h2, h3, h4, h5, h6, h7, -⟩
    simp only [Bool.not_eq_false', Bool.and_eq_true, decide_eq_true_eq] at h1
    refine ⟨h1.1, h1.2, ?_, ?_, ?_, ?_, ?_, ?_⟩
    · intro hns
      rcases Bool.and_eq_false_iff.mp h2 with h' | h'
      · exact absurd hns (by simp [h'])
      · simpa using h'
    · cases hms : intent.max_stops with
      | none => trivial
      | some m =>
        rw [hms] at h3
        simpa [not_lt] using h3
    · cases hmp : intent.max_price_usd with
      | none => trivial
      | some p =>
        rw [hmp] at h4
        intro hp0
        rcases Bool.and_eq_false_iff.mp h4 with h' | h'
        · exact absurd hp0 (by simpa using h')
        · simpa [not_lt] using h'
    · cases hmd : intent.max_duration_hours with
      | none => trivial
      | some hrs =>
        rw [hmd] at h5
        intro hd0
        rcases Bool.and_eq_false_iff.mp h5 with h' | h'
        · exact absurd hd0 (by simpa using h')
        · simpa [not_lt] using h'
    · intro hnr leg hleg hre
      rcases Bool.and_eq_false_iff.mp h6 with h' | h'
      · exact absurd hnr (by simp [h'])
      · rw [List.any_eq_false] at h'
        exact absurd (decide_eq_true hre) (by simpa using h' leg hleg)
    · intro hno l hlm
      rcases Bool.and_eq_false_iff.mp h7 with h' | h'
      · exact absurd hno (by simp [h'])
      · rw [List.any_eq_false] at h'
        simpa using h' l hlm
  · rintro ⟨h1, h2, h3, h4, h5, h6, h7, h8⟩
    refine ⟨?_, ?_, ?_, ?_, ?_, ?_, ?_, trivial⟩
    · simp only [Bool.not_eq_false', Bool.and_eq_true, decide_eq_true_eq]
      exact ⟨h1, h2⟩
    · cases hns : intent.nonstop_only
      · simp
      · simp [h3 hns]
    · cases hms : intent.max_stops with
      | none => rfl
      | some m =>
        rw [hms] at h4
        simpa [not_lt] using h4
    · cases hmp : intent.max_price_usd with
      | none => rfl
      | some p =>
        rw [hmp] at h5
        by_cases hp0 : p = 0
        · simp [hp0]
        · simp [hp0, not_lt.mpr (h5 hp0)]
    · cases hmd : intent.max_duration_hours with
      | none => rfl
      | some hrs =>
        rw [hmd] at h6
        by_cases hd0 : hrs = 0
        · simp [hd0]
        · simp [hd0, not_lt.mpr (h6 hd0)]
    · cases hnr : intent.no_red_eyes
      · simp
      · simp only [Bool.true_and]
        rw [List.any_eq_false]
        intro leg hleg
        simpa using h7 hnr leg hleg
    · cases hno : intent.no_overnight_layovers
      · simp
      · simp only [Bool.true_and]
        rw [List.any_eq_false]
        exact fun l hlm => by simp [h8 hno l hlm]

/-- C7 (counterexample): with a max-price ceiling of `0` (and max-duration
of `0` hours), the filter keeps an itinerary priced 100 with duration 210
minutes — Python truthiness disables both ceilings — although the claim
says a candidate may survive only if its price does not exceed the set
ceiling. -/
theorem keeps_itinerary_claim_counterexample :
    SearchOrchestrator.keeps_itinerary exIntentC7 exItinBase = true ∧
      ¬ survives_claim exIntentC7 exItinBase := by
  constructor
  · decide
  · intro hs
    have hp := hs.2.2.2.2.1
    simp only [exIntentC7, exItinBase, exPrice] at hp
    norm_num at hp

/-- C7 (witness): the amended filter characterisation instantiated on an
unconstrained intent and the concrete single-leg itinerary. -/
theorem keeps_itinerary_iff_witness :
    exItinBase.legs ≠ [] ∧
      (SearchOrchestrator.keeps_itinerary exIntentPlain exItinBase = true ↔
        survives_amended exIntentPlain exItinBase) :=
  ⟨by decide, keeps_itinerary_iff exIntentPlain exItinBase (by decide)⟩

/-- C9: `rank_itineraries` returns a permutation of its input — the same
itineraries (tracked by `itinerary_id`, since scoring mutates the records
in place) appear exactly once each — and every returned itinerary carries a
populated score breakdown together with a score equal to the weighted sum
of its seven sub-scores rounded to two decimals. -/
theorem rank_itineraries_perm_and_scored (search_intent : Option SearchIntent)
    (itineraries : List Itinerary) :
    ((ItineraryRanker.rank_itineraries search_intent itineraries).map
        Itinerary.itinerary_id).Perm (itineraries.map Itinerary.itinerary_id) ∧
      ∀ itin ∈ ItineraryRanker.rank_itineraries search_intent itineraries,
        ∃ b, itin.score_breakdown = some b ∧
          itin.score = some (round2 (ItineraryRanker.weighted_total
            (ItineraryRanker.get_weights search_intent) b)) := by
  unfold ItineraryRanker.rank_itineraries
  by_cases hnil : itineraries = []
  · subst hnil
    simp
  · rw [if_neg hnil]
    constructor
    · rw [List.map_map]
      have h1 : (List.insertionSort ItineraryRanker.ScoreDescLe
            (itineraries.map (ItineraryRanker.calculate_score
              (ItineraryRanker.get_weights search_intent) itineraries))).map
            Itinerary.itinerary_id =
          (List.insertionSort ItineraryRanker.ScoreDescLe
            (itineraries.map (ItineraryRanker.calculate_score
              (ItineraryRanker.get_weights search_intent) itineraries))).map
            (Itinerary.itinerary_id ∘ (fun itin =>
              { itin with explanation := some (ItineraryRanker.generate_explanation itin
                  (List.insertionSort ItineraryRanker.ScoreDescLe
                    (itineraries.map (ItineraryRanker.calculate_score
                      (ItineraryRanker.get_weights search_intent) itineraries)))) })) := rfl
      rw [← h1]
      have h2 := (List.perm_insertionSort ItineraryRanker.ScoreDescLe
        (itineraries.map (ItineraryRanker.calculate_score
          (ItineraryRanker.get_weights search_intent) itineraries))).map
        Itinerary.itinerary_id
      refine h2.trans ?_
      rw [List.map_map]
      exact List.Perm.of_eq rfl
    · intro itin hmem
      rw [List.mem_map] at hmem
      obtain ⟨it1, hit1, rfl⟩ := hmem
      have hs : it1 ∈ itineraries.map (ItineraryRanker.calculate_score
          (ItineraryRanker.get_weights search_intent) itineraries) :=
        (List.perm_insertionSort _ _).subset hit1
      rw [List.mem_map] at hs
      obtain ⟨it0, _, rfl⟩ := hs
      exact ⟨_, rfl, rfl⟩
